import Mathlib

/-!
Shallow embedding of the Web-Crawler repository
(src/Basic E-commerce Scrapper/src/scraper.py — the class-based variant, and
src/Basic E-commerce Scrapper/src/Advanced.py — the pattern-based variant),
together with theorems settling the frozen claims about the spec.

Modelling conventions:
  * HTML parsing (BeautifulSoup) is an external collaborator; a product
    container is modelled by exactly the query results each variant reads
    from it (title anchor, price text, availability text, rating classes).
  * Python strings are Lean `String`s; `str.strip()` is `pyStrip`,
    `str.lower()` is `pyLower`, substring tests are `containsSubstr`.
  * Python floats are modelled as rationals (`ℚ`): `float(s)` on a
    digits-and-dots string is `parseFloat`.
  * Fallible Python code (AttributeError, KeyError/TypeError) is modelled
    with `Except String`; a caught exception is a handled `.error` value.
-/

/-- A character counts as whitespace for Python `str.strip()`. -/
def pyWs (c : Char) : Bool := c = ' ' || c = '\t' || c = '\n' || c = '\r'

/-- Python `str.strip()`: drop leading and trailing whitespace. -/
def pyStrip (s : String) : String :=
  ⟨((s.data.dropWhile pyWs).reverse.dropWhile pyWs).reverse⟩

/-- Python `str.lower()` (ASCII case folding suffices for the texts involved). -/
def pyLower (s : String) : String := ⟨s.data.map Char.toLower⟩

/-- Containment of one character list in another, as Python's `in` on strings. -/
def listContainsSub (needle hay : List Char) : Bool :=
  (List.range (hay.length + 1)).any (fun i => needle.isPrefixOf (hay.drop i))

/-- Python `needle in hay` on strings. -/
def containsSubstr (needle hay : String) : Bool :=
  listContainsSub needle.data hay.data

/-- Python `re.sub(r"[^0-9.]", "", s)`: keep only ASCII digits and dots. -/
def cleanDigits (s : String) : String :=
  ⟨s.data.filter (fun c => c.isDigit || c = '.')⟩

/-- Value of a list of ASCII digit characters read in base 10. -/
def digitsToNat (cs : List Char) : Nat :=
  cs.foldl (fun a c => a * 10 + (c.toNat - 48)) 0

/-- Python `float(s)` restricted to strings of digits and dots (the only
shape reaching it in the source after `re.sub(r"[^0-9.]", "", ...)`):
succeeds iff there is at most one dot and at least one digit; the empty
string, a lone dot, and strings with several dots raise `ValueError`,
modelled as `none`. -/
def parseFloat (s : String) : Option ℚ :=
  let cs := s.data
  if (cs.all (fun c => c.isDigit || c = '.') && cs.count '.' ≤ 1
      && cs.any (fun c => c.isDigit)) then
    let intPart := cs.takeWhile (fun c => c ≠ '.')
    let fracPart := (cs.dropWhile (fun c => c ≠ '.')).drop 1
    some (mkRat (digitsToNat (intPart ++ fracPart)) (10 ^ fracPart.length))
  else none

/-- RATING_MAP of scraper.py: the five fixed words mapped to 1..5;
`dict.get` with an unknown key gives the default, modelled as `none`. -/
def ratingMap (w : String) : Option Nat :=
  if w = "One" then some 1
  else if w = "Two" then some 2
  else if w = "Three" then some 3
  else if w = "Four" then some 4
  else if w = "Five" then some 5
  else none

namespace Scraper

/-- One `article.product_pod` container, seen through the queries
`parse_products` of scraper.py performs on it.
  * `h3a`: result of `product.h3.a` — `none` when `h3` (or its `a`) is
    missing so the attribute access raises AttributeError; `some attr`
    gives the anchor's `title` attribute (`none` when the attribute is
    absent, in which case `.get("title", "")` yields `""`).
  * `priceText`: text of `p.price_color`, `none` when the element is absent.
  * `availText`: text of `p.instock.availability`, `none` when absent.
  * `ratingClasses`: class list of `p.star-rating`, `none` when absent. -/
structure SProduct where
  h3a : Option (Option String)
  priceText : Option String
  availText : Option String
  ratingClasses : Option (List String)
deriving Repr, DecidableEq

/-- A row appended by scraper.py's `parse_products`:
`[title, price, availability, rating]` with price `float` or blank and
rating `int` or blank, the blanks modelled as `none`. -/
structure SRow where
  title : String
  price : Option ℚ
  availability : String
  rating : Option Nat
deriving Repr, DecidableEq

/-- Title step of scraper.py `parse_products`: `product.h3.a` may raise
AttributeError; otherwise `title_tag.get("title", "").strip()`, and an
empty result raises AttributeError("missing title"). -/
def sTitle (p : SProduct) : Except String String :=
  match p.h3a with
  | none => .error "AttributeError"
  | some attr =>
    let t := pyStrip (attr.getD "")
    if t = "" then .error "missing title" else .ok t

/-- Price step of scraper.py `parse_products`: blank unless the element
exists with truthy text; then strip, drop every char but digits and dots,
and convert with `float`, blank again on ValueError or empty remainder. -/
def sPrice (p : SProduct) : Option ℚ :=
  match p.priceText with
  | none => none
  | some s => if s = "" then none else parseFloat (cleanDigits (pyStrip s))

/-- Availability text of scraper.py: stripped element text, or `""` when
the element is missing or its text is falsy. -/
def sAvailText (p : SProduct) : String :=
  match p.availText with
  | none => ""
  | some s => if s = "" then "" else pyStrip s

/-- Availability normalization of scraper.py: "In Stock" exactly when the
lower-cased availability text contains "in stock", else "Out of Stock". -/
def sAvail (p : SProduct) : String :=
  if containsSubstr "in stock" (pyLower (sAvailText p)) then "In Stock"
  else "Out of Stock"

/-- Rating step of scraper.py: first class of the star-rating tag whose
lower-case form differs from "star-rating", pushed through RATING_MAP;
an absent tag or unrecognized word leaves the rating blank. -/
def sRating (p : SProduct) : Option Nat :=
  match p.ratingClasses with
  | none => none
  | some cls =>
    match cls.find? (fun c => pyLower c != "star-rating") with
    | none => none
    | some w => ratingMap w

/-- Body of the per-product `try` block of scraper.py `parse_products`. -/
def sParse1 (p : SProduct) : Except String SRow :=
  match sTitle p with
  | .error e => .error e
  | .ok t => .ok ⟨t, sPrice p, sAvail p, sRating p⟩

/-- scraper.py `parse_products`: each container is processed inside
`try ... except AttributeError: continue`, so a failing container is
skipped and the loop moves on. -/
def parse_products : List SProduct → List SRow
  | [] => []
  | p :: rest =>
    match sParse1 p with
    | .ok r => r :: parse_products rest
    | .error _ => parse_products rest

/-- Persisted CSV output, abstracted from the delimited-file mechanics the
spec places out of scope: a header row flag plus the records written. -/
structure CsvFile where
  header : Bool
  rows : List SRow
deriving Repr, DecidableEq

/-- Observable outcome of `save_to_csv` of scraper.py: the file written
(`none` when nothing was created), whether the "No data to save" notice
was printed, and whether the "Failed to save CSV" error was printed. -/
structure SaveResult where
  file : Option CsvFile
  noticePrinted : Bool
  errorPrinted : Bool
deriving Repr, DecidableEq

/-- `save_to_csv` of scraper.py. `writeOk` stands for the filesystem
collaborator: when the write raises, the `except` clause prints the error
and the function returns normally. With empty rows the function prints a
notice and returns before opening the file. -/
def save_to_csv (rows : List SRow) (writeOk : Bool) : SaveResult :=
  if rows = [] then ⟨none, true, false⟩
  else if writeOk then ⟨some ⟨true, rows⟩, false, false⟩
  else ⟨none, false, true⟩

/-- Python `round(x, 2)`, modelled as rounding to the nearest multiple of
1/100 (the tie-breaking rule of binary floats is not observable in any
claim settled here). -/
def round2 (q : ℚ) : ℚ := (round (q * 100) : ℚ) / 100

/-- The console summary computed at the end of `main` in scraper.py. -/
structure Summary where
  total : Nat
  validPrices : Nat
  missingPrices : Nat
  avgPrice : Option ℚ
  avgRating : Option ℚ
  dist : Nat → Nat

/-- Summary-statistics block of `main` in scraper.py: prices are the row
entries that are numbers, ratings the entries that are ints; averages are
`None` when the corresponding list is empty; the distribution is
`Counter(ratings).get(star, 0)`. -/
def summarize (rows : List SRow) : Summary :=
  let prices := rows.filterMap SRow.price
  let ratings := rows.filterMap SRow.rating
  { total := rows.length
    validPrices := prices.length
    missingPrices := rows.length - prices.length
    avgPrice := if prices = [] then none else some (round2 (prices.sum / (prices.length : ℚ)))
    avgRating := if ratings = [] then none
      else some (round2 ((ratings.sum : ℚ) / (ratings.length : ℚ)))
    dist := fun star => ratings.count star }

end Scraper

namespace Advanced

/-- One `article` container, seen through the queries `parse_products` of
Advanced.py performs on it.
  * `h3` — result of the title pattern `p.find("h3")` and the following
    accesses: `none` when no `h3` exists (the code then uses `"?"`);
    `some none` when `h3` exists but has no anchor, so `None.get("title")`
    raises AttributeError; `some (some attr)` gives the anchor's `title`
    attribute, itself `none` (Python `None`) when absent.
  * `priceTagText`: text of the first `p` whose string matches `£`,
    `none` when no such element exists.
  * `availTagText`: text of the first `p` whose string matches `stock`
    case-insensitively, `none` when no such element exists.
  * `ratingClasses`: class list of the first `p` whose class matches
    `star-rating`, `none` when no such element exists. -/
structure AProduct where
  h3 : Option (Option (Option String))
  priceTagText : Option String
  availTagText : Option String
  ratingClasses : Option (List String)
deriving Repr, DecidableEq

/-- A row appended by Advanced.py's `parse_products`:
`[title, price, availability, rating]` — the title is a Python string or
`None` (modelled as `Option String`), the price is the cleaned TEXT (never
parsed to a number), availability is the raw located text or `"?"`, and
the rating is the raw class word or `""`. -/
structure ARow where
  title : Option String
  price : String
  availability : String
  rating : String
deriving Repr, DecidableEq

/-- Title pattern of Advanced.py:
`p.find("h3").a.get("title") if p.find("h3") else "?"`. -/
def aTitle (p : AProduct) : Except String (Option String) :=
  match p.h3 with
  | none => .ok (some "?")
  | some none => .error "AttributeError"
  | some (some attr) => .ok attr

/-- Price pattern of Advanced.py: `get_text(strip=True)` of the pound-sign
element, cleaned with `re.sub` keeping digits and dots — kept as TEXT, with
no conversion to a number; `""` when no such element exists. -/
def aPrice (p : AProduct) : String :=
  match p.priceTagText with
  | none => ""
  | some s => cleanDigits (pyStrip s)

/-- Availability pattern of Advanced.py: the raw stripped text of the
`stock`-bearing element, or `"?"` when no such element exists — no
normalization to a canonical value. -/
def aAvail (p : AProduct) : String :=
  match p.availTagText with
  | none => "?"
  | some s => pyStrip s

/-- Rating pattern of Advanced.py: the raw class word next to
`star-rating`, kept as TEXT (no lookup through a word table); `""` when
the element is missing, the word is missing, or the word is falsy. -/
def aRating (p : AProduct) : String :=
  match p.ratingClasses with
  | none => ""
  | some cls =>
    match cls.find? (fun c => pyLower c != "star-rating") with
    | none => ""
    | some w => if w = "" then "" else w

/-- One iteration of the loop in Advanced.py `parse_products` (no `try`
around it: an AttributeError propagates out of the whole function). -/
def aParse1 (p : AProduct) : Except String ARow :=
  match aTitle p with
  | .error e => .error e
  | .ok t => .ok ⟨t, aPrice p, aAvail p, aRating p⟩

/-- Advanced.py `parse_products`: every container's row is appended
unconditionally; an exception while processing any container aborts the
whole call. -/
def parse_products : List AProduct → Except String (List ARow)
  | [] => .ok []
  | p :: rest =>
    match aParse1 p with
    | .error e => .error e
    | .ok r =>
      match parse_products rest with
      | .error e => .error e
      | .ok rs => .ok (r :: rs)

end Advanced

/-- Navigation structure of a page, seen through the queries of
`get_next_page` (identical in scraper.py and Advanced.py):
`none` — no `li.next` element; `some none` — a `li.next` exists but its
anchor or `href` is missing, so `next_li.a["href"]` raises;
`some (some href)` — the anchor's `href` target. -/
structure NavPage where
  nextLi : Option (Option String)
deriving Repr, DecidableEq

/-- Modelled from the spec: `urllib.parse.urljoin`, the external
URL-resolution collaborator — "resolves its (possibly relative) target
against the current page's URL to an absolute URL". An absolute target is
kept; a relative one replaces the last segment of the base. -/
def urljoin (base href : String) : String :=
  if containsSubstr "://" href then href
  else ⟨(base.data.reverse.dropWhile (fun c => c ≠ '/')).reverse ++ href.data⟩

/-- `get_next_page` of scraper.py (and, identically, of Advanced.py):
`None` when no `li.next` exists, otherwise `urljoin(current_url,
next_li.a["href"])`; the unguarded `next_li.a["href"]` access raises when
the marker carries no anchor href. -/
def get_next_page (page : NavPage) (currentUrl : String) : Except String (Option String) :=
  match page.nextLi with
  | none => .ok none
  | some none => .error "TypeError"
  | some (some href) => .ok (some (urljoin currentUrl href))

namespace Scraper

/-- One page of the crawled site as `main` of scraper.py consumes it: its
product containers and its navigation marker (`NavPage` shape). -/
structure SPage where
  products : List SProduct
  nextLi : Option (Option String)
deriving Repr, DecidableEq

/-- Result of `fetch_page` of scraper.py for one URL: the page, or a
transport failure (timeout / request error), which `fetch_page` turns
into `sys.exit(1)`. -/
inductive Fetched where
  | ok (pg : SPage)
  | fail
deriving Repr, DecidableEq

/-- Observable outcome of a run of `main` in scraper.py: the process exit
status, the outcome of the save step (absent file and no messages when the
run aborted before saving), and the accumulator contents at that point. -/
structure RunResult where
  exitCode : Nat
  save : SaveResult
  rows : List SRow
deriving Repr, DecidableEq

/-- The `while url:` loop of `main` in scraper.py over a site given as a
map from URL to fetch outcome, with `fuel` bounding the number of
iterations modelled (`none` = the unbounded loop was not exhausted within
`fuel` pages — the spec's documented no-cycle-detection limitation).
A failing fetch is `sys.exit(1)`: exit status 1 with no save and no
summary. An exception escaping `get_next_page` aborts the interpreter,
also with exit status 1. When the loop ends normally, `save_to_csv` runs
(its failure is caught and printed) and the summary is printed; `main`
then returns, so the process exits with status 0. -/
def runScraper (site : String → Fetched) (writeOk : Bool) :
    Nat → String → List SRow → Option RunResult
  | 0, _, _ => none
  | fuel + 1, url, acc =>
    match site url with
    | .fail => some ⟨1, ⟨none, false, false⟩, acc⟩
    | .ok pg =>
      match get_next_page ⟨pg.nextLi⟩ url with
      | .error _ => some ⟨1, ⟨none, false, false⟩, acc ++ parse_products pg.products⟩
      | .ok none =>
        some ⟨0, save_to_csv (acc ++ parse_products pg.products) writeOk,
          acc ++ parse_products pg.products⟩
      | .ok (some nurl) =>
        runScraper site writeOk fuel nurl (acc ++ parse_products pg.products)

/-- Events a run of `main` performs, in order: page fetches and the single
hand-off of the accumulator to the reporter. -/
inductive Ev where
  | fetch (url : String)
  | report (rows : List SRow)
deriving Repr, DecidableEq

/-- Whether an event is the hand-off to the reporter. -/
def isReport : Ev → Bool
  | .report _ => true
  | .fetch _ => false

/-- Fetch trace and final accumulator of the `while url:` loop of `main`,
for a site on which every fetch succeeds: one `Ev.fetch` per iteration;
`none` when `fuel` iterations did not reach the last page or the
navigator raised. -/
def crawlEvents (site : String → SPage) :
    Nat → String → List SRow → Option (List Ev × List SRow)
  | 0, _, _ => none
  | fuel + 1, url, acc =>
    match get_next_page ⟨(site url).nextLi⟩ url with
    | .error _ => none
    | .ok none => some ([Ev.fetch url], acc ++ parse_products (site url).products)
    | .ok (some nurl) =>
      match crawlEvents site fuel nurl (acc ++ parse_products (site url).products) with
      | none => none
      | some (evs, fin) => some (Ev.fetch url :: evs, fin)

/-- Full event trace of `main`: the loop's fetches followed by the single
hand-off of the accumulated rows to the reporting stage. -/
def mainEvents (site : String → SPage) (fuel : Nat) (seed : String) : Option (List Ev) :=
  match crawlEvents site fuel seed [] with
  | none => none
  | some (evs, fin) => some (evs ++ [Ev.report fin])

end Scraper

section Sanity

example : pyStrip "  A Light in the Attic " = "A Light in the Attic" := by decide
example : cleanDigits "£51.77" = "51.77" := by decide
example : parseFloat "51.77" = some (mkRat 5177 100) := by decide
example : parseFloat "" = none := by decide
example : parseFloat "1.2.3" = none := by decide
example : parseFloat "." = none := by decide
example : containsSubstr "in stock" (pyLower "In stock (19 available)") = true := by decide
example : containsSubstr "in stock" (pyLower "Out of stock") = false := by decide
example : ratingMap "Three" = some 3 := by decide
example : ratingMap "Zero" = none := by decide
example :
    Scraper.parse_products
      [⟨some (some "A Book"), some "£51.77", some "In stock", some ["star-rating", "Three"]⟩] =
    [⟨"A Book", some (mkRat 5177 100), "In Stock", some 3⟩] := by decide

example :
    Advanced.parse_products [⟨none, none, none, none⟩] =
    .ok [⟨some "?", "", "?", ""⟩] := rfl
example :
    Advanced.parse_products [⟨none, some "£1.2.3", none, none⟩] =
    .ok [⟨some "?", "1.2.3", "?", ""⟩] := rfl
example : get_next_page ⟨none⟩ "https://books.toscrape.com/" = .ok none := rfl
example :
    get_next_page ⟨some (some "catalogue/page-2.html")⟩ "https://books.toscrape.com/" =
    .ok (some "https://books.toscrape.com/catalogue/page-2.html") := rfl
example :
    get_next_page ⟨some none⟩ "https://books.toscrape.com/" = .error "TypeError" := rfl

end Sanity

section Helpers

/-- Whitespace characters survive neither the digit-or-dot filter. -/
theorem pyWs_not_kept {c : Char} (h : pyWs c = true) : (c.isDigit || c = '.') = false := by
  simp only [pyWs, Bool.or_eq_true, decide_eq_true_eq] at h
  rcases h with ((h | h) | h) | h <;> subst h <;> decide

/-- Dropping a whitespace run first does not change the digit-or-dot filter. -/
theorem filter_dropWhile_pyWs (l : List Char) :
    (l.dropWhile pyWs).filter (fun c => c.isDigit || c = '.') =
      l.filter (fun c => c.isDigit || c = '.') := by
  induction l with
  | nil => rfl
  | cons c t ih =>
    by_cases h : pyWs c = true
    · simp [List.dropWhile_cons, List.filter_cons, h, pyWs_not_kept h, ih]
    · simp [List.dropWhile_cons, h]

/-- Stripping whitespace before the digit-or-dot cleanup is a no-op:
`cleanDigits (pyStrip s) = cleanDigits s`. -/
theorem cleanDigits_pyStrip (s : String) : cleanDigits (pyStrip s) = cleanDigits s := by
  unfold cleanDigits pyStrip
  congr 1
  rw [List.filter_reverse, filter_dropWhile_pyWs, List.filter_reverse,
    filter_dropWhile_pyWs, List.reverse_reverse]

/-- RATING_MAP only ever yields integers in `[1, 5]`. -/
theorem ratingMap_range {w : String} {n : Nat} (h : ratingMap w = some n) :
    1 ≤ n ∧ n ≤ 5 := by
  unfold ratingMap at h
  split_ifs at h <;> simp_all <;> omega

/-- Filtered-out `none`s: `filterMap` keeps as many elements as the
`isSome` filter. -/
theorem length_filterMap_isSome {α β : Type} (f : α → Option β) (l : List α) :
    (l.filterMap f).length = (l.filter (fun a => (f a).isSome)).length := by
  induction l with
  | nil => rfl
  | cons a t ih => cases h : f a <;> simp [List.filterMap_cons, List.filter_cons, h, ih]

/-- Occurrences in a `filterMap` image, counted back on the source list. -/
theorem count_filterMap_eq {α β : Type} [DecidableEq β] (f : α → Option β) (b : β)
    (l : List α) :
    (l.filterMap f).count b = (l.filter (fun a => f a = some b)).length := by
  induction l with
  | nil => rfl
  | cons a t ih =>
    cases h : f a with
    | none => simp [List.filterMap_cons, List.filter_cons, h, ih]
    | some c =>
      by_cases hb : c = b
      · subst hb; simp [List.filterMap_cons, List.filter_cons, h, ih, List.count_cons]
      · simp [List.filterMap_cons, List.filter_cons, h, ih, List.count_cons, hb]

/-- A title accepted by the title step is never empty. -/
theorem Scraper.sTitle_ok_ne_empty {p : Scraper.SProduct} {t : String}
    (h : Scraper.sTitle p = .ok t) : t ≠ "" := by
  unfold Scraper.sTitle at h
  cases hp : p.h3a with
  | none => rw [hp] at h; exact Except.noConfusion h
  | some attr =>
    rw [hp] at h
    by_cases he : pyStrip (attr.getD "") = ""
    · simp [he] at h
    · simp only [he, if_false] at h
      injection h with h2
      subst h2
      exact he

/-- A row accepted by the per-product body carries exactly the four field
extractions of scraper.py. -/
theorem Scraper.sParse1_ok {p : Scraper.SProduct} {r : Scraper.SRow}
    (h : Scraper.sParse1 p = .ok r) :
    Scraper.sTitle p = .ok r.title ∧ r.price = Scraper.sPrice p ∧
      r.availability = Scraper.sAvail p ∧ r.rating = Scraper.sRating p := by
  unfold Scraper.sParse1 at h
  cases ht : Scraper.sTitle p with
  | error e => rw [ht] at h; exact Except.noConfusion h
  | ok t =>
    rw [ht] at h
    injection h with h2
    subst h2
    exact ⟨rfl, rfl, rfl, rfl⟩

/-- Equation lemma: an empty container list yields no rows. -/
theorem Scraper.parse_products_nil : Scraper.parse_products [] = [] := rfl

/-- Equation lemma: a container whose body succeeds contributes its row. -/
theorem Scraper.parse_products_cons_ok {p : Scraper.SProduct} {r : Scraper.SRow}
    (h : Scraper.sParse1 p = .ok r) (ps : List Scraper.SProduct) :
    Scraper.parse_products (p :: ps) = r :: Scraper.parse_products ps := by
  simp only [Scraper.parse_products]
  rw [h]

/-- Equation lemma: a container whose body raises contributes nothing. -/
theorem Scraper.parse_products_cons_error {p : Scraper.SProduct} {e : String}
    (h : Scraper.sParse1 p = .error e) (ps : List Scraper.SProduct) :
    Scraper.parse_products (p :: ps) = Scraper.parse_products ps := by
  simp only [Scraper.parse_products]
  rw [h]

/-- Every row returned by scraper.py's `parse_products` comes from a
container its body accepted. -/
theorem Scraper.mem_parse_products {r : Scraper.SRow} :
    ∀ {ps : List Scraper.SProduct}, r ∈ Scraper.parse_products ps →
      ∃ p, p ∈ ps ∧ Scraper.sParse1 p = .ok r := by
  intro ps
  induction ps with
  | nil =>
    intro h
    rw [Scraper.parse_products_nil] at h
    exact absurd h (List.not_mem_nil r)
  | cons p t ih =>
    intro h
    cases hp : Scraper.sParse1 p with
    | error e =>
      rw [Scraper.parse_products_cons_error hp] at h
      obtain ⟨q, hq, hq2⟩ := ih h
      exact ⟨q, List.mem_cons_of_mem _ hq, hq2⟩
    | ok row =>
      rw [Scraper.parse_products_cons_ok hp] at h
      rcases List.mem_cons.mp h with h | h
      · exact ⟨p, List.mem_cons_self p t, by rw [hp, h]⟩
      · obtain ⟨q, hq, hq2⟩ := ih h
        exact ⟨q, List.mem_cons_of_mem _ hq, hq2⟩

/-- A container whose body raises is dropped from the output, leaving the
other containers' rows untouched. -/
theorem Scraper.parse_products_append_skip {c : Scraper.SProduct} {e : String}
    (hc : Scraper.sParse1 c = .error e) (pre post : List Scraper.SProduct) :
    Scraper.parse_products (pre ++ c :: post) =
      Scraper.parse_products pre ++ Scraper.parse_products post := by
  induction pre with
  | nil =>
    rw [List.nil_append, Scraper.parse_products_cons_error hc,
      Scraper.parse_products_nil, List.nil_append]
  | cons a t ih =>
    rw [List.cons_append]
    cases ha : Scraper.sParse1 a with
    | ok r =>
      rw [Scraper.parse_products_cons_ok ha, Scraper.parse_products_cons_ok ha, ih,
        List.cons_append]
    | error e2 =>
      rw [Scraper.parse_products_cons_error ha, Scraper.parse_products_cons_error ha, ih]

/-- The loop of `main` performs only fetches: the reporting hand-off never
happens inside it. -/
theorem Scraper.crawlEvents_no_report (site : String → Scraper.SPage) :
    ∀ (fuel : Nat) (url : String) (acc facc : List Scraper.SRow)
      (evs : List Scraper.Ev),
      Scraper.crawlEvents site fuel url acc = some (evs, facc) →
      evs.countP (fun e => Scraper.isReport e) = 0 := by
  intro fuel
  induction fuel with
  | zero => intro url acc facc evs h; exact Option.noConfusion h
  | succ n ih =>
    intro url acc facc evs h
    unfold Scraper.crawlEvents at h
    split at h
    · exact Option.noConfusion h
    · injection h with h2
      have he : [Scraper.Ev.fetch url] = evs := congrArg Prod.fst h2
      rw [← he]
      rfl
    · split at h
      · exact Option.noConfusion h
      · rename_i evs2 facc2 hc
        injection h with h2
        have he : Scraper.Ev.fetch url :: evs2 = evs := congrArg Prod.fst h2
        have h0 := ih _ _ _ _ hc
        rw [← he, List.countP_cons, h0]
        simp [Scraper.isReport]

end Helpers

section Claims

/-- C1 (amended, class-based variant): every record appended by
scraper.py's `parse_products` has a non-empty title, and a container whose
title step fails — absent anchor or empty title — is never accepted by the
per-product body. (The pattern-based variant violates the original claim;
see the counterexample.) -/
theorem C1_scraper_title_nonempty :
    (∀ (ps : List Scraper.SProduct) (r : Scraper.SRow),
        r ∈ Scraper.parse_products ps → r.title ≠ "") ∧
    (∀ (p : Scraper.SProduct) (e : String), Scraper.sTitle p = .error e →
        ∀ r : Scraper.SRow, Scraper.sParse1 p ≠ .ok r) := by
  constructor
  · intro ps r hr
    obtain ⟨p, _, hp⟩ := Scraper.mem_parse_products hr
    exact Scraper.sTitle_ok_ne_empty (Scraper.sParse1_ok hp).1
  · intro p e he r hok
    have h1 := (Scraper.sParse1_ok hok).1
    rw [he] at h1
    exact Except.noConfusion h1

/-- C1 witness: a concrete accepted container indeed yields a non-empty
title. -/
theorem C1_witness :
    (⟨"A Light in the Attic", none, "Out of Stock", none⟩ : Scraper.SRow).title ≠ "" :=
  C1_scraper_title_nonempty.1 [⟨some (some "A Light in the Attic"), none, none, none⟩]
    ⟨"A Light in the Attic", none, "Out of Stock", none⟩ (by decide)

/-- C1 counterexample: the pattern-based `parse_products` of Advanced.py
does NOT skip a container without a title heading — it appends a record
whose title is the placeholder `"?"`, refuting the claim for that
variant. -/
theorem C1_counterexample :
    Advanced.parse_products [⟨none, none, none, none⟩] =
      .ok [⟨some "?", "", "?", ""⟩] := rfl

/-- C2 (amended, class-based variant): the availability of every accepted
record is exactly one of the two canonical values: "In Stock" when the
located availability text contains "in stock" case-insensitively anywhere,
and "Out of Stock" in every other case, including an absent marker. (The
pattern-based variant stores raw source text; see the counterexample.) -/
theorem C2_scraper_availability_canonical :
    ∀ (p : Scraper.SProduct) (r : Scraper.SRow), Scraper.sParse1 p = .ok r →
      (r.availability = "In Stock" ∨ r.availability = "Out of Stock") ∧
      (containsSubstr "in stock" (pyLower (Scraper.sAvailText p)) = true →
        r.availability = "In Stock") ∧
      (containsSubstr "in stock" (pyLower (Scraper.sAvailText p)) = false →
        r.availability = "Out of Stock") ∧
      (p.availText = none → r.availability = "Out of Stock") := by
  intro p r h
  have hav := (Scraper.sParse1_ok h).2.2.1
  rw [hav]
  unfold Scraper.sAvail
  refine ⟨?_, ?_, ?_, ?_⟩
  · by_cases hc : containsSubstr "in stock" (pyLower (Scraper.sAvailText p)) = true
    · left; rw [if_pos hc]
    · right; rw [if_neg hc]
  · intro hc; rw [if_pos hc]
  · intro hc; simp [hc]
  · intro hn
    have h0 : Scraper.sAvailText p = "" := by unfold Scraper.sAvailText; rw [hn]
    rw [h0]
    rfl

/-- C2 witness: "In stock (19 available)" normalizes to the canonical
in-stock value. -/
theorem C2_witness :
    (⟨"A Book", none, "In Stock", none⟩ : Scraper.SRow).availability = "In Stock" :=
  (C2_scraper_availability_canonical
    ⟨some (some "A Book"), none, some "In stock (19 available)", none⟩
    ⟨"A Book", none, "In Stock", none⟩ rfl).2.1 (by decide)

/-- C2 counterexample: the pattern-based `parse_products` of Advanced.py
stores the raw located text "In stock (19 available)" as the availability
value, which is neither of the two canonical values. -/
theorem C2_counterexample :
    (Advanced.parse_products
        [⟨some (some (some "T")), none, some "In stock (19 available)", none⟩] =
      .ok [⟨some "T", "", "In stock (19 available)", ""⟩]) ∧
    "In stock (19 available)" ≠ "In Stock" ∧
    "In stock (19 available)" ≠ "Out of Stock" := ⟨rfl, by decide, by decide⟩

/-- C3 (amended, class-based variant): the rating of every accepted record
is the star-rating class token mapped through RATING_MAP, hence always
either absent or an integer in [1, 5], and an absent marker yields the
no-value state. (The pattern-based variant stores the raw token; see the
counterexample.) -/
theorem C3_scraper_rating_word_table :
    ∀ (p : Scraper.SProduct) (r : Scraper.SRow), Scraper.sParse1 p = .ok r →
      r.rating = Scraper.sRating p ∧
      (∀ n, r.rating = some n → 1 ≤ n ∧ n ≤ 5) ∧
      (p.ratingClasses = none → r.rating = none) := by
  intro p r h
  have hr := (Scraper.sParse1_ok h).2.2.2
  refine ⟨hr, ?_, ?_⟩
  · intro n hn
    rw [hr] at hn
    unfold Scraper.sRating at hn
    cases hcls : p.ratingClasses with
    | none => rw [hcls] at hn; exact Option.noConfusion hn
    | some cls =>
      rw [hcls] at hn
      have hn2 : (match cls.find? (fun c => pyLower c != "star-rating") with
          | none => none
          | some w => ratingMap w) = some n := hn
      cases hw : cls.find? (fun c => pyLower c != "star-rating") with
      | none => rw [hw] at hn2; exact Option.noConfusion hn2
      | some w => rw [hw] at hn2; exact ratingMap_range hn2
  · intro hcls
    rw [hr]
    unfold Scraper.sRating
    rw [hcls]

/-- C3 witness: the token "Three" maps to 3 ∈ [1, 5], while the
unrecognized token "Zero" yields the no-value state. -/
theorem C3_witness :
    (1 ≤ 3 ∧ 3 ≤ 5) ∧
      Scraper.sRating ⟨some (some "B"), none, none, some ["star-rating", "Zero"]⟩ = none := by
  constructor
  · exact (C3_scraper_rating_word_table
      ⟨some (some "B"), none, none, some ["star-rating", "Three"]⟩
      ⟨"B", none, "Out of Stock", some 3⟩ rfl).2.1 3 rfl
  · decide

/-- C3 counterexample: the pattern-based `parse_products` of Advanced.py
keeps the raw class token "Zero" as the rating value instead of mapping it
through the word table or degrading it to the no-value state. -/
theorem C3_counterexample :
    (Advanced.parse_products
        [⟨some (some (some "T")), none, none, some ["star-rating", "Zero"]⟩] =
      .ok [⟨some "T", "", "?", "Zero"⟩]) ∧ "Zero" ≠ "" := ⟨rfl, by decide⟩

/-- C4 (amended, class-based variant): price extraction keeps only digits
and dots from the located currency text and parses the remainder with
`float`; an absent element, empty remainder, or parse failure degrades to
the no-value state, never to zero. (The pattern-based variant keeps the
cleaned text unparsed; see the counterexample.) -/
theorem C4_scraper_price_parse :
    ∀ (p : Scraper.SProduct) (r : Scraper.SRow), Scraper.sParse1 p = .ok r →
      (∀ s, p.priceText = some s → s ≠ "" → r.price = parseFloat (cleanDigits s)) ∧
      (p.priceText = none → r.price = none) ∧
      (∀ s, p.priceText = some s → parseFloat (cleanDigits s) = none →
        r.price = none) := by
  intro p r h
  have hp := (Scraper.sParse1_ok h).2.1
  refine ⟨?_, ?_, ?_⟩
  · intro s hs hne
    rw [hp]
    unfold Scraper.sPrice
    rw [hs]
    show (if s = "" then none else parseFloat (cleanDigits (pyStrip s))) = _
    rw [if_neg hne, cleanDigits_pyStrip]
  · intro hn
    rw [hp]
    unfold Scraper.sPrice
    rw [hn]
  · intro s hs hnone
    rw [hp]
    unfold Scraper.sPrice
    rw [hs]
    show (if s = "" then none else parseFloat (cleanDigits (pyStrip s))) = none
    by_cases he : s = ""
    · rw [if_pos he]
    · rw [if_neg he, cleanDigits_pyStrip, hnone]

/-- C4 witness: "£51.77" parses to the number 51.77, and "no price info"
carries no digits, so it degrades to the no-value state. -/
theorem C4_witness :
    ((⟨"A Book", some (mkRat 5177 100), "In Stock", some 3⟩ : Scraper.SRow).price =
        parseFloat (cleanDigits "£51.77")) ∧
      parseFloat (cleanDigits "£51.77") = some (mkRat 5177 100) ∧
      parseFloat (cleanDigits "no price info") = none := by
  refine ⟨?_, by decide, by decide⟩
  exact (C4_scraper_price_parse
    ⟨some (some "A Book"), some "£51.77", some "In stock", some ["star-rating", "Three"]⟩
    ⟨"A Book", some (mkRat 5177 100), "In Stock", some 3⟩ rfl).1 "£51.77" rfl (by decide)

/-- C4 counterexample: the pattern-based `parse_products` of Advanced.py
keeps the unparseable cleaned remainder "1.2.3" verbatim as the price
value instead of degrading it to the no-value state (and it never parses
the remainder into a number at all). -/
theorem C4_counterexample :
    (Advanced.parse_products [⟨none, some "£1.2.3", none, none⟩] =
      .ok [⟨some "?", "1.2.3", "?", ""⟩]) ∧ "1.2.3" ≠ "" := ⟨rfl, by decide⟩

/-- C5 (amended): `get_next_page` returns `None` when no "next" marker is
present and the marker's target resolved against the current URL when one
is present with an anchor href; it never raises on such pages — but a page
whose "next" marker lacks an anchor href makes it raise, so it is not
total over all page structures (see the counterexample). -/
theorem C5_navigator_total_resolves :
    ∀ (page : NavPage) (url : String), page.nextLi ≠ some none →
      (∀ e, get_next_page page url ≠ .error e) ∧
      (page.nextLi = none → get_next_page page url = .ok none) ∧
      (∀ href, page.nextLi = some (some href) →
        get_next_page page url = .ok (some (urljoin url href))) := by
  intro page url hp
  refine ⟨?_, ?_, ?_⟩
  · intro e he
    unfold get_next_page at he
    cases hn : page.nextLi with
    | none => rw [hn] at he; exact Except.noConfusion he
    | some o =>
      cases o with
      | none => exact hp hn
      | some href => rw [hn] at he; exact Except.noConfusion he
  · intro hn
    unfold get_next_page
    rw [hn]
  · intro href hn
    unfold get_next_page
    rw [hn]

/-- C5 witness: a relative "next" target is resolved against the current
page URL to an absolute URL; an absent marker yields `None`. -/
theorem C5_witness :
    get_next_page ⟨some (some "catalogue/page-2.html")⟩ "https://books.toscrape.com/" =
      .ok (some "https://books.toscrape.com/catalogue/page-2.html") := by
  have h := (C5_navigator_total_resolves ⟨some (some "catalogue/page-2.html")⟩
    "https://books.toscrape.com/" (by decide)).2.2 "catalogue/page-2.html" rfl
  rw [h]
  rfl

/-- C5 counterexample: a page carrying a "next" marker without an anchor
href makes `next_li.a["href"]` raise, so the navigator is not total over
all page structures. -/
theorem C5_counterexample :
    get_next_page ⟨some none⟩ "https://books.toscrape.com/" = .error "TypeError" := rfl

/-- C6 (amended): the class-based variant exits with status zero on normal
completion and with status one on a fail-hard fetch failure; an
output-write failure is clearly signaled on the console (the error is
printed) but the process still finishes the summary and exits with status
ZERO — the failure never produces a non-zero exit (see the
counterexample). -/
theorem C6_exit_codes :
    ∀ (site : String → Scraper.Fetched) (writeOk : Bool) (fuel : Nat) (url : String)
      (acc : List Scraper.SRow),
      (site url = .fail →
        Scraper.runScraper site writeOk (fuel + 1) url acc =
          some ⟨1, ⟨none, false, false⟩, acc⟩) ∧
      (∀ res, Scraper.runScraper site writeOk fuel url acc = some res →
        (res.exitCode = 0 ∨ res.exitCode = 1) ∧
        (res.exitCode = 0 → res.save = Scraper.save_to_csv res.rows writeOk) ∧
        (res.exitCode = 0 → writeOk = false → res.rows ≠ [] →
          res.save.errorPrinted = true)) := by
  intro site writeOk fuel url acc
  constructor
  · intro hf
    unfold Scraper.runScraper
    rw [hf]
  · induction fuel generalizing url acc with
    | zero => intro res h; exact Option.noConfusion h
    | succ n ih =>
      intro res h
      unfold Scraper.runScraper at h
      split at h
      · injection h with h2
        subst h2
        refine ⟨Or.inr rfl, ?_, ?_⟩
        · intro h0; simp at h0
        · intro h0; simp at h0
      · split at h
        · injection h with h2
          subst h2
          refine ⟨Or.inr rfl, ?_, ?_⟩
          · intro h0; simp at h0
          · intro h0; simp at h0
        · injection h with h2
          subst h2
          refine ⟨Or.inl rfl, fun _ => rfl, ?_⟩
          intro _ hw hne
          simp [Scraper.save_to_csv, hne, hw]
        · exact ih _ _ res h

/-- C6 witness: a fetch failure at the very first page aborts the run with
exit status one, an empty accumulator, and no save attempted. -/
theorem C6_witness :
    Scraper.runScraper (fun _ => .fail) true 1 "https://books.toscrape.com/" [] =
      some ⟨1, ⟨none, false, false⟩, []⟩ :=
  (C6_exit_codes (fun _ => .fail) true 0 "https://books.toscrape.com/" []).1 rfl

/-- C6 counterexample: a single-page run whose CSV write fails still exits
with status ZERO — the error is printed (`errorPrinted = true`) but the
claimed non-zero exit never happens. -/
theorem C6_counterexample :
    Scraper.runScraper
        (fun _ => .ok ⟨[⟨some (some "A Book"), some "£51.77", some "In stock", none⟩], none⟩)
        false 1 "https://books.toscrape.com/" [] =
      some ⟨0, ⟨none, false, true⟩,
        [⟨"A Book", some (mkRat 5177 100), "In Stock", none⟩]⟩ := by decide

/-- C7: the summary over the final accumulator reports the total record
count; the mean price, rounded to 2 decimal places, over exactly the
records with a present price (no-value when none has one); the mean rating
likewise over present ratings; and a histogram whose value at each rating
k is the number of records rated k — absent ratings excluded and unseen
values reporting 0. -/
theorem C7_summary_statistics :
    ∀ rows : List Scraper.SRow,
      (Scraper.summarize rows).total = rows.length ∧
      (Scraper.summarize rows).validPrices =
        (rows.filter (fun r => r.price.isSome)).length ∧
      (Scraper.summarize rows).avgPrice =
        (if (rows.filter (fun r => r.price.isSome)).length = 0 then none
         else some (Scraper.round2 ((rows.filterMap Scraper.SRow.price).sum /
           ((rows.filter (fun r => r.price.isSome)).length : ℚ)))) ∧
      (Scraper.summarize rows).avgRating =
        (if (rows.filter (fun r => r.rating.isSome)).length = 0 then none
         else some (Scraper.round2 (((rows.filterMap Scraper.SRow.rating).sum : ℚ) /
           ((rows.filter (fun r => r.rating.isSome)).length : ℚ)))) ∧
      (∀ k, (Scraper.summarize rows).dist k =
        (rows.filter (fun r => r.rating = some k)).length) := by
  intro rows
  refine ⟨rfl, ?_, ?_, ?_, ?_⟩
  · show (rows.filterMap Scraper.SRow.price).length = _
    exact length_filterMap_isSome Scraper.SRow.price rows
  · show (if rows.filterMap Scraper.SRow.price = [] then none
        else some (Scraper.round2 ((rows.filterMap Scraper.SRow.price).sum /
          ((rows.filterMap Scraper.SRow.price).length : ℚ)))) = _
    rw [← length_filterMap_isSome Scraper.SRow.price rows]
    simp only [List.length_eq_zero]
  · show (if rows.filterMap Scraper.SRow.rating = [] then none
        else some (Scraper.round2 (((rows.filterMap Scraper.SRow.rating).sum : ℚ) /
          ((rows.filterMap Scraper.SRow.rating).length : ℚ)))) = _
    rw [← length_filterMap_isSome Scraper.SRow.rating rows]
    simp only [List.length_eq_zero]
  · intro k
    show (rows.filterMap Scraper.SRow.rating).count k = _
    exact count_filterMap_eq Scraper.SRow.rating k rows

/-- C8: when the navigator yields `None` for the current page, the driver
loop finishes after that page's single fetch — no further fetch happens —
and every terminating run hands the accumulated rows to the reporter
exactly once. -/
theorem C8_driver_done_on_none :
    ∀ (site : String → Scraper.SPage) (fuel : Nat) (url : String)
      (acc : List Scraper.SRow),
      ((site url).nextLi = none →
        Scraper.crawlEvents site (fuel + 1) url acc =
          some ([Scraper.Ev.fetch url],
            acc ++ Scraper.parse_products (site url).products) ∧
        Scraper.mainEvents site (fuel + 1) url =
          some [Scraper.Ev.fetch url,
            Scraper.Ev.report (Scraper.parse_products (site url).products)]) ∧
      (∀ evs, Scraper.mainEvents site fuel url = some evs →
        evs.countP (fun e => Scraper.isReport e) = 1) := by
  intro site fuel url acc
  constructor
  · intro hn
    have hgn : get_next_page ⟨(site url).nextLi⟩ url = .ok none := by
      rw [hn]
      rfl
    constructor
    · unfold Scraper.crawlEvents
      rw [hgn]
    · have hc0 : Scraper.crawlEvents site (fuel + 1) url [] =
          some ([Scraper.Ev.fetch url],
            [] ++ Scraper.parse_products (site url).products) := by
        unfold Scraper.crawlEvents
        rw [hgn]
      unfold Scraper.mainEvents
      rw [hc0]
      rfl
  · intro evs h
    unfold Scraper.mainEvents at h
    cases hc : Scraper.crawlEvents site fuel url [] with
    | none => rw [hc] at h; exact Option.noConfusion h
    | some pr =>
      obtain ⟨evs2, facc2⟩ := pr
      rw [hc] at h
      injection h with h2
      rw [← h2, List.countP_append,
        Scraper.crawlEvents_no_report site fuel url [] facc2 evs2 hc]
      simp [List.countP_cons, Scraper.isReport]

/-- C8 witness: on a one-page site without a "next" marker, the run's
whole trace is one fetch followed by one report. -/
theorem C8_witness :
    Scraper.mainEvents (fun _ => ⟨[], none⟩) 1 "https://books.toscrape.com/" =
      some [Scraper.Ev.fetch "https://books.toscrape.com/", Scraper.Ev.report []] :=
  ((C8_driver_done_on_none (fun _ => ⟨[], none⟩) 0 "https://books.toscrape.com/" []).1
    rfl).2

/-- C9: in the class-based extractor, an attribute-access failure while
processing one product container drops exactly that container: the
function still returns, keeping every record produced from the containers
before and after the failing one. -/
theorem C9_attribute_error_skips_one :
    ∀ (pre post : List Scraper.SProduct) (c : Scraper.SProduct) (e : String),
      Scraper.sParse1 c = .error e →
      Scraper.parse_products (pre ++ c :: post) =
        Scraper.parse_products pre ++ Scraper.parse_products post :=
  fun pre post _ _ hc => Scraper.parse_products_append_skip hc pre post

/-- C9 witness: a failing middle container is skipped while its two
well-formed neighbours survive. -/
theorem C9_witness :
    Scraper.parse_products
        [⟨some (some "A"), none, none, none⟩, ⟨none, none, none, none⟩,
          ⟨some (some "B"), none, none, none⟩] =
      Scraper.parse_products [⟨some (some "A"), none, none, none⟩] ++
        Scraper.parse_products [⟨some (some "B"), none, none, none⟩] :=
  C9_attribute_error_skips_one [⟨some (some "A"), none, none, none⟩]
    [⟨some (some "B"), none, none, none⟩] ⟨none, none, none, none⟩ "AttributeError" rfl

/-- C10: saving an empty record sequence writes nothing at all — no file,
no header row — and only prints the notice; consequently a full run that
collects zero records produces no CSV file. -/
theorem C10_empty_save_writes_nothing :
    (∀ writeOk : Bool, Scraper.save_to_csv [] writeOk = ⟨none, true, false⟩) ∧
      Scraper.runScraper (fun _ => .ok ⟨[], none⟩) true 1 "https://books.toscrape.com/" [] =
        some ⟨0, ⟨none, true, false⟩, []⟩ := by
  constructor
  · intro writeOk; rfl
  · rfl

end Claims
